import Mathlib

/-!
Shallow embedding of the CoreSync IMS backend authentication subsystem.

The definitions below are translated from the TypeScript source:
* `src/src/controllers/auth.controller.ts` — the wired auth controller
  (`register`, `login`, `requestPasswordReset`, `resetPassword`);
* `src/unnamed/part_002` — the `loginLimiter` (express-rate-limit
  configuration) and the alternative controller (`registerV2`);
* `src/unnamed/part_003` — the alternative `register` variant (`registerV3`);
* `src/src/middlewares/auth.middleware.ts` — both `authenticateToken`
  variants and `requireRoles`;
* `src/src/middlewares/error.middleware.ts` — the `authorize` middleware.

Machine conventions: timestamps are `Nat` (milliseconds for the controller
flows, the same abstract clock for JWT where only the relation between
`now`, `iat` and `exp` matters).  bcrypt digests are modelled as the pair
(plaintext, salt) — `bcrypt.compare` succeeds exactly when the plaintext
matches, independently of the salt, which is the library's contract.  JWT
signatures are modelled as the tuple of signed data and secret, capturing
that a signature validates exactly when secret and signed fields agree.
-/

namespace CoreSync

/-! ### bcrypt model -/

/-- A salted one-way digest: `bcrypt.hash(plain, rounds)` with a fresh salt. -/
structure Digest where
  plain : String
  salt : Nat
deriving DecidableEq, Repr

/-- `bcrypt.hash` — the salt argument stands for the randomness drawn at call time. -/
def bcryptHash (plain : String) (salt : Nat) : Digest := ⟨plain, salt⟩

/-- `bcrypt.compare(plain, digest)` — true iff the plaintext matches, whatever the salt. -/
def bcryptCompare (plain : String) (d : Digest) : Bool := d.plain == plain

/-! ### JWT model (`jsonwebtoken`: `jwt.sign` / `jwt.verify`) -/

/-- The payload the controllers sign: `{ id, email }`. -/
structure JwtPayload where
  id : Nat
  email : String
deriving DecidableEq, Repr

/-- The signature over header and payload, keyed by the server secret. -/
structure JwtSig where
  secret : String
  payload : JwtPayload
  iat : Nat
  expiry : Nat
deriving DecidableEq, Repr

/-- A signed token: payload plus `iat`/`exp` claims and the signature. -/
structure Token where
  payload : JwtPayload
  iat : Nat
  expiry : Nat
  sig : JwtSig
deriving DecidableEq, Repr

/-- `jwt.sign(payload, secret, { expiresIn: ttl })` at clock time `now`. -/
def jwtSign (secret : String) (p : JwtPayload) (ttl now : Nat) : Token :=
  { payload := p, iat := now, expiry := now + ttl,
    sig := { secret := secret, payload := p, iat := now, expiry := now + ttl } }

/-- The errors `jwt.verify` throws: `JsonWebTokenError` for a bad or forged
token, `TokenExpiredError` when `now ≥ exp`. -/
inductive JwtError
  | invalidToken
  | tokenExpired
deriving DecidableEq, Repr

/-- `jwt.verify(token, secret)` at clock time `now`: checks the signature,
then fails when `now` has reached `exp` (the check is `clockTimestamp >= exp`,
so verification at exactly the expiry instant fails). -/
def jwtVerify (secret : String) (t : Token) (now : Nat) : Except JwtError JwtPayload :=
  if t.sig ≠ { secret := secret, payload := t.payload, iat := t.iat, expiry := t.expiry } then
    .error .invalidToken
  else if t.expiry ≤ now then
    .error .tokenExpired
  else
    .ok t.payload

/-- The `catch` arm of the first `authenticateToken` middleware: every
`jwt.JsonWebTokenError` (expiry included) is rethrown as
`AuthenticationError('Invalid or expired token')`. -/
inductive AppErr
  | authenticationError (msg : String)
  | authorizationError (msg : String)
deriving DecidableEq, Repr

/-- Mapping of `jwt.verify` failures to the application error taxonomy,
as performed by `authenticateToken` in `auth.middleware.ts`. -/
def jwtErrorToAppErr : JwtError → AppErr :=
  fun _ => .authenticationError "Invalid or expired token"

/-! ### Directory (Prisma) state -/

/-- `Role` row. -/
structure Role where
  id : Nat
  name : String
deriving DecidableEq, Repr

/-- `User` row. -/
structure User where
  id : Nat
  firstName : String
  lastName : String
  email : String
  password : Digest
  departmentId : Option Nat
deriving DecidableEq, Repr

/-- `UserRole` row (role assignment). -/
structure UserRole where
  userId : Nat
  roleId : Nat
deriving DecidableEq, Repr

/-- `Department` row (only the fields the auth flows read). -/
structure Department where
  id : Nat
  name : String
deriving DecidableEq, Repr

/-- The JSON `details` column of `UserActivityLog`, restricted to the fields
the reset flow reads back (`resetToken`, `expires`); all other log entries
leave them `none`. -/
structure LogDetails where
  resetToken : Option Digest := none
  expires : Option Nat := none
deriving DecidableEq, Repr

/-- `UserActivityLog` row. -/
structure ActivityLog where
  userId : Nat
  action : String
  details : LogDetails
deriving DecidableEq, Repr

/-- The Directory state the auth flows touch.  `logs` is kept newest first,
so `findFirst … orderBy timestamp desc` is `List.find?` and a `create` is a
cons.  `nextUserId` models the autoincrement id sequence; `salt` models the
bcrypt entropy source (one fresh salt per hash call). -/
structure Db where
  users : List User
  roles : List Role
  userRoles : List UserRole
  departments : List Department
  logs : List ActivityLog
  nextUserId : Nat
  salt : Nat
deriving DecidableEq, Repr

/-- `prisma.user.findUnique({ where: { email } })`. -/
def findUserByEmail (db : Db) (email : String) : Option User :=
  db.users.find? (fun u => u.email == email)

/-- Role names of a user, through the `userRoles` include. -/
def userRoleNames (db : Db) (u : User) : List String :=
  ((db.userRoles.filter (fun ur => ur.userId == u.id)).filterMap
    (fun ur => db.roles.find? (fun r => r.id == ur.roleId))).map (fun r => r.name)

/-! ### Input validation (auth.controller.ts / part_002 helpers) -/

/-- A character admitted by `[^\s@]` in the email regex: not `@` and not
whitespace (the whitespace forms that could occur in an email input). -/
def isEmailChar (c : Char) : Bool :=
  !(c == '@' || c == ' ' || c == '\t' || c == '\n' || c == '\r')

/-- The domain part matches `[^\s@]+\.[^\s@]+` iff it has a dot that is
neither its first nor its last character. -/
def hasInteriorDot (cs : List Char) : Bool :=
  match cs with
  | [] => false
  | _ :: rest => rest.dropLast.contains '.'

/-- `/^[^\s@]+@[^\s@]+\.[^\s@]+$/.test(email)`: a non-empty local part, one
`@`, and a domain with an interior dot, no whitespace or second `@` anywhere. -/
def emailRegexTest (s : String) : Bool :=
  let cs := s.toList
  match cs.findIdx? (fun c => c == '@') with
  | none => false
  | some i =>
    let loc := cs.take i
    let dom := cs.drop (i + 1)
    !loc.isEmpty && loc.all isEmailChar && !dom.isEmpty && dom.all isEmailChar
      && hasInteriorDot dom

def isUpperCh (c : Char) : Bool := decide ('A'.toNat ≤ c.toNat ∧ c.toNat ≤ 'Z'.toNat)
def isLowerCh (c : Char) : Bool := decide ('a'.toNat ≤ c.toNat ∧ c.toNat ≤ 'z'.toNat)
def isDigitCh (c : Char) : Bool := decide ('0'.toNat ≤ c.toNat ∧ c.toNat ≤ '9'.toNat)
def isAsciiLetter (c : Char) : Bool := isUpperCh c || isLowerCh c

/-- `auth.controller.ts` strength check: at least 8 characters, a `[A-Za-z]`
match and a `[0-9]` match (the negation of the rejection condition). -/
def passwordPolicyOk (p : String) : Bool :=
  decide (8 ≤ p.length) && p.toList.any isAsciiLetter && p.toList.any isDigitCh

/-- `part_002` strength regex `^(?=.*[a-z])(?=.*[A-Z])(?=.*\d)[a-zA-Z\d]{8,}$`:
alphanumeric only, length at least 8, with a lowercase, an uppercase and a digit. -/
def passwordRegexV2 (p : String) : Bool :=
  decide (8 ≤ p.length) && p.toList.all (fun c => isAsciiLetter c || isDigitCh c)
    && p.toList.any isLowerCh && p.toList.any isUpperCh && p.toList.any isDigitCh

/-! ### Responses -/

/-- The `formattedUser` object the wired controller returns: the spread of
the user row with `password` either stripped (`password: undefined`, which
JSON serialization drops) or — in the `part_003` variant — left in place,
plus the `roles` array. -/
structure UserProjection where
  id : Nat
  firstName : String
  lastName : String
  email : String
  password : Option Digest
  departmentId : Option Nat
  roles : List Role
deriving DecidableEq, Repr

/-- An HTTP response of the wired auth controller: status code plus the
parts of the JSON body the claims inspect. -/
structure AuthResponse where
  status : Nat
  message : Option String := none
  user : Option UserProjection := none
  token : Option Token := none
deriving DecidableEq, Repr

/-- Response of the `part_002` controller variant, whose register body is
`{ message, user: { id, email } }` — it has no token field at all. -/
structure SlimResponse where
  status : Nat
  message : String
  userId : Option Nat := none
  userEmail : Option String := none
deriving DecidableEq, Repr

/-! ### Wired controller: `register` (auth.controller.ts) -/

/-- Request body of the wired `register`: `roles` may be a single name or an
array; the `Array.isArray` coercion makes a lone name a singleton list, so
the model takes the list directly (`none` = field absent/falsy). -/
structure RegisterRequest where
  firstName : String
  lastName : String
  email : String
  password : String
  department : Option String := none
  roles : Option (List String) := none
deriving Repr

/-- `register` from `auth.controller.ts`: validation, duplicate-email check
(409), role-name resolution (400 when none match), optional department
lookup, then a transaction creating the user, one `UserRole` per found role
and a `USER_CREATED` log entry; responds 201 with the formatted user (hash
stripped) **and a freshly signed 24h JWT**. -/
def register (secret : String) (now : Nat) (db : Db) (req : RegisterRequest) :
    AuthResponse × Db :=
  if req.firstName == "" || req.lastName == "" || req.email == "" || req.password == "" then
    ({ status := 400, message := some "Missing required fields: firstName, lastName, email, and password are required" }, db)
  else if !emailRegexTest req.email then
    ({ status := 400, message := some "Invalid email format" }, db)
  else if !passwordPolicyOk req.password then
    ({ status := 400, message := some "Password must be at least 8 characters long and include both letters and numbers" }, db)
  else match db.users.find? (fun u => u.email == req.email) with
  | some _ => ({ status := 409, message := some "User with this email already exists" }, db)
  | none =>
    match req.roles with
    | none => ({ status := 400, message := some "At least one role must be selected" }, db)
    | some rolesArray =>
      if rolesArray.isEmpty then
        ({ status := 400, message := some "At least one role must be selected" }, db)
      else
        let rolesFound := db.roles.filter (fun r => rolesArray.contains r.name)
        if rolesFound.isEmpty then
          ({ status := 400, message := some "Invalid role(s) provided" }, db)
        else
          match req.department with
          | some dname =>
            match db.departments.find? (fun d => d.name == dname) with
            | none => ({ status := 400, message := some "Department not found" }, db)
            | some dept => registerCreate secret now db req rolesFound (some dept.id)
          | none => registerCreate secret now db req rolesFound none
where
  /-- The transaction and response tail of `register`. -/
  registerCreate (secret : String) (now : Nat) (db : Db) (req : RegisterRequest)
      (rolesFound : List Role) (departmentId : Option Nat) : AuthResponse × Db :=
    let hashed := bcryptHash req.password db.salt
    let newUser : User :=
      { id := db.nextUserId, firstName := req.firstName, lastName := req.lastName,
        email := req.email, password := hashed, departmentId := departmentId }
    let db2 : Db :=
      { db with
        users := db.users ++ [newUser],
        userRoles := db.userRoles ++ rolesFound.map (fun r => UserRole.mk newUser.id r.id),
        logs := ActivityLog.mk newUser.id "USER_CREATED" {} :: db.logs,
        nextUserId := db.nextUserId + 1,
        salt := db.salt + 1 }
    let proj : UserProjection :=
      { id := newUser.id, firstName := newUser.firstName, lastName := newUser.lastName,
        email := newUser.email, password := none, departmentId := departmentId,
        roles := rolesFound }
    let tok := jwtSign secret { id := newUser.id, email := newUser.email } (24 * 3600000) now
    ({ status := 201, user := some proj, token := some tok }, db2)

/-! ### Wired controller: `login` (auth.controller.ts) -/

structure LoginRequest where
  email : String
  password : String
deriving Repr

/-- `login` from `auth.controller.ts`: 400 on missing fields, **404 "User
not found"** when the email is absent from the Directory, **401 "Invalid
credentials"** on password mismatch, else 200 with the formatted user
(hash stripped), a 24h JWT, and a `USER_LOGIN` log entry. -/
def login (secret : String) (now : Nat) (db : Db) (req : LoginRequest) :
    AuthResponse × Db :=
  if req.email == "" || req.password == "" then
    ({ status := 400, message := some "Email and password are required" }, db)
  else match db.users.find? (fun u => u.email == req.email) with
  | none => ({ status := 404, message := some "User not found" }, db)
  | some u =>
    if !bcryptCompare req.password u.password then
      ({ status := 401, message := some "Invalid credentials" }, db)
    else
      let proj : UserProjection :=
        { id := u.id, firstName := u.firstName, lastName := u.lastName,
          email := u.email, password := none, departmentId := u.departmentId,
          roles := (db.userRoles.filter (fun ur => ur.userId == u.id)).filterMap
            (fun ur => db.roles.find? (fun r => r.id == ur.roleId)) }
      let tok := jwtSign secret { id := u.id, email := u.email } (24 * 3600000) now
      let db2 : Db := { db with logs := ActivityLog.mk u.id "USER_LOGIN" {} :: db.logs }
      ({ status := 200, user := some proj, token := some tok }, db2)

/-! ### Wired controller: password reset (auth.controller.ts) -/

/-- `RESET_TOKEN_EXPIRES = 3600000` (1 hour in milliseconds). -/
def RESET_TOKEN_EXPIRES : Nat := 3600000

/-- `requestPasswordReset`: always answers 200 with the generic message for
a registered or unregistered email; for a registered one it stores the
bcrypt digest of a fresh random secret (`secretDrawn`) with a 1h expiry in
a `PASSWORD_RESET_REQUESTED` activity-log entry. -/
def requestPasswordReset (db : Db) (now : Nat) (secretDrawn : String) (email : String) :
    SlimResponse × Db :=
  if email == "" then
    ({ status := 400, message := "Email is required" }, db)
  else match db.users.find? (fun u => u.email == email) with
  | none =>
    ({ status := 200,
       message := "If the email is registered, you will receive a password reset link" }, db)
  | some u =>
    let hashedResetToken := bcryptHash secretDrawn db.salt
    let entry : ActivityLog :=
      { userId := u.id, action := "PASSWORD_RESET_REQUESTED",
        details := { resetToken := some hashedResetToken,
                     expires := some (now + RESET_TOKEN_EXPIRES) } }
    ({ status := 200,
       message := "If the email is registered, you will receive a password reset link" },
     { db with logs := entry :: db.logs, salt := db.salt + 1 })

structure ResetRequest where
  email : String
  token : String
  newPassword : String
deriving Repr

/-- `resetPassword`: validates input and strength, loads the user (404 when
absent), takes the **latest `PASSWORD_RESET_REQUESTED` log entry** for the
user (400 when none), rejects when expired (`Date.now() > expiry`) or when
the secret does not match the stored digest, and otherwise updates the
password and appends `PASSWORD_CHANGED` and `PASSWORD_RESET_COMPLETED` log
entries.  Nothing marks the reset request consumed: the source only
appends a completion log which the lookup never consults. -/
def resetPassword (db : Db) (now : Nat) (req : ResetRequest) : SlimResponse × Db :=
  if req.email == "" || req.token == "" || req.newPassword == "" then
    ({ status := 400, message := "Email, token, and new password are required" }, db)
  else if !passwordPolicyOk req.newPassword then
    ({ status := 400, message := "Password must be at least 8 characters long and include both letters and numbers" }, db)
  else match db.users.find? (fun u => u.email == req.email) with
  | none => ({ status := 404, message := "User not found" }, db)
  | some u =>
    match db.logs.find? (fun l => l.userId == u.id && l.action == "PASSWORD_RESET_REQUESTED") with
    | none => ({ status := 400, message := "Invalid or expired reset token" }, db)
    | some resetRequest =>
      let hashedToken := resetRequest.details.resetToken.getD ⟨"", 0⟩
      let expiryDate := resetRequest.details.expires.getD 0
      if expiryDate < now then
        ({ status := 400, message := "Reset token has expired" }, db)
      else if !bcryptCompare req.token hashedToken then
        ({ status := 400, message := "Invalid reset token" }, db)
      else
        let hashedPassword := bcryptHash req.newPassword db.salt
        let db2 : Db :=
          { db with
            users := db.users.map (fun u2 =>
              if u2.id == u.id then { u2 with password := hashedPassword } else u2),
            logs := ActivityLog.mk u.id "PASSWORD_RESET_COMPLETED" {}
              :: ActivityLog.mk u.id "PASSWORD_CHANGED" {} :: db.logs,
            salt := db.salt + 1 }
        ({ status := 200, message := "Password has been reset successfully" }, db2)

/-! ### `part_002` controller variant: `registerV2` -/

structure RegisterV2Request where
  firstName : String
  lastName : String
  email : String
  password : String
  departmentId : Option Nat := none
deriving Repr

/-- `register` from `src/unnamed/part_002`: email format and strength-regex
checks, then **400 "User already exists"** on a duplicate email; on success
creates the user (no role assignment) and responds 201 with
`{ message, user: { id, email } }` and **no token**. -/
def registerV2 (db : Db) (req : RegisterV2Request) : SlimResponse × Db :=
  if !emailRegexTest req.email then
    ({ status := 400, message := "Invalid email format" }, db)
  else if !passwordRegexV2 req.password then
    ({ status := 400, message := "Password must be at least 8 characters long and contain uppercase, lowercase, and numbers" }, db)
  else match db.users.find? (fun u => u.email == req.email) with
  | some _ => ({ status := 400, message := "User already exists" }, db)
  | none =>
    let hashed := bcryptHash req.password db.salt
    let newUser : User :=
      { id := db.nextUserId, firstName := req.firstName, lastName := req.lastName,
        email := req.email, password := hashed, departmentId := req.departmentId }
    ({ status := 201, message := "User registered successfully",
       userId := some newUser.id, userEmail := some newUser.email },
     { db with users := db.users ++ [newUser], nextUserId := db.nextUserId + 1,
               salt := db.salt + 1 })

/-! ### `part_003` controller variant: `registerV3` -/

structure RegisterV3Request where
  firstName : String
  lastName : String
  email : String
  password : String
  departmentId : Option Nat := none
  roleIds : Option (List Nat) := none
deriving Repr

/-- `register` from `src/unnamed/part_003`: requires a non-empty `roleIds`,
requires a department when a management role is requested, then creates the
user and one `UserRole` per **requested** id; the response's
`formattedUser` is the spread of the user row with the `roles` array added —
the stored `password` digest is **not stripped** — plus a 24h JWT. -/
def registerV3 (secret : String) (now : Nat) (db : Db) (req : RegisterV3Request) :
    AuthResponse × Db :=
  match req.roleIds with
  | none => ({ status := 400, message := some "At least one role must be selected" }, db)
  | some roleIds =>
    if roleIds.isEmpty then
      ({ status := 400, message := some "At least one role must be selected" }, db)
    else
      let roles := db.roles.filter (fun r => roleIds.contains r.id)
      let requiresDepartment :=
        roles.any (fun r => ["Manager", "Department Head", "Team Lead"].contains r.name)
      if requiresDepartment && req.departmentId.isNone then
        ({ status := 400, message := some "A department is required for the selected role(s)" }, db)
      else
        let hashed := bcryptHash req.password db.salt
        let newUser : User :=
          { id := db.nextUserId, firstName := req.firstName, lastName := req.lastName,
            email := req.email, password := hashed, departmentId := req.departmentId }
        let db2 : Db :=
          { db with
            users := db.users ++ [newUser],
            userRoles := db.userRoles ++ roleIds.map (fun rid => UserRole.mk newUser.id rid),
            logs := ActivityLog.mk newUser.id "USER_CREATED" {} :: db.logs,
            nextUserId := db.nextUserId + 1,
            salt := db.salt + 1 }
        let proj : UserProjection :=
          { id := newUser.id, firstName := newUser.firstName, lastName := newUser.lastName,
            email := newUser.email, password := some hashed, departmentId := req.departmentId,
            roles := roles }
        let tok := jwtSign secret { id := newUser.id, email := newUser.email } (24 * 3600000) now
        ({ status := 201, user := some proj, token := some tok }, db2)

/-! ### Access Guard (auth.middleware.ts) -/

/-- What `authHeader?.split(' ')[1]` yields: no bearer string at all, a
bearer string that is not a structurally valid JWT, or a parsed token. -/
inductive TokenInput
  | missing
  | garbage
  | token (t : Token)
deriving DecidableEq, Repr

/-- Outcome of a guard middleware: `next()` with the resolved user attached
to the request, or a rejection with a status code and message. -/
inductive GuardResult
  | proceed (u : User)
  | reject (status : Nat) (message : String)
deriving DecidableEq, Repr

/-- The second `authenticateToken` variant (`auth.middleware.ts`, the one
with explicit status codes): 401 "Token missing" without a token, **403
"Invalid or expired token"** when `jwt.verify` throws (malformed, forged or
expired), 401 when the token's user no longer exists, else `next()`. -/
def authenticateTokenV2 (secret : String) (now : Nat) (db : Db) (inp : TokenInput) :
    GuardResult :=
  match inp with
  | .missing => .reject 401 "Token missing"
  | .garbage => .reject 403 "Invalid or expired token"
  | .token t =>
    match jwtVerify secret t now with
    | .error _ => .reject 403 "Invalid or expired token"
    | .ok p =>
      match db.users.find? (fun u => u.id == p.id) with
      | none => .reject 401 "Invalid token: user not found"
      | some u => .proceed u

/-- The first `authenticateToken` variant, which throws typed errors that
the error pipeline receives: `AuthenticationError` in every failure case. -/
def authenticateTokenV1 (secret : String) (now : Nat) (db : Db) (inp : TokenInput) :
    Except AppErr User :=
  match inp with
  | .missing => .error (.authenticationError "Authentication token is required")
  | .garbage => .error (jwtErrorToAppErr .invalidToken)
  | .token t =>
    match jwtVerify secret t now with
    | .error e => .error (jwtErrorToAppErr e)
    | .ok p =>
      match db.users.find? (fun u => u.id == p.id) with
      | none => .error (.authenticationError "User not found")
      | some u => .ok u

/-- `requireRoles` core test: `req.user.roles.some(role => allowedRoles.includes(role))`. -/
def hasRequiredRole (userRoles allowedRoles : List String) : Bool :=
  userRoles.any (fun role => allowedRoles.contains role)

/-- `requireRoles(allowedRoles)` from `auth.middleware.ts`: missing context
user → `AuthenticationError`; no shared role → `AuthorizationError`;
otherwise `next()`. -/
def requireRoles (allowedRoles : List String) (ctxRoles : Option (List String)) :
    Except AppErr Unit :=
  match ctxRoles with
  | none => .error (.authenticationError "User not authenticated")
  | some roles =>
    if hasRequiredRole roles allowedRoles then .ok ()
    else .error (.authorizationError "Insufficient permissions")

/-- `authorize(requiredRoles)` core test from `error.middleware.ts`:
`requiredRoles.some(role => userRoles.includes(role))`. -/
def authorizeCheck (requiredRoles userRoles : List String) : Bool :=
  requiredRoles.any (fun role => userRoles.contains role)

/-- `authorize(requiredRoles)` middleware: 401 without a context user, 403
"Insufficient permissions" when no required role is held, else `next()`. -/
def authorize (requiredRoles : List String) (ctxRoles : Option (List String)) :
    Option (Nat × String) :=
  match ctxRoles with
  | none => some (401, "Authentication required")
  | some userRoles =>
    if authorizeCheck requiredRoles userRoles then none
    else some (403, "Insufficient permissions")

/-! ### `loginLimiter` (`express-rate-limit`, src/unnamed/part_002) -/

/-- `windowMs: 15 * 60 * 1000`. -/
def limiterWindowMs : Nat := 15 * 60 * 1000

/-- `max: 5`. -/
def limiterMax : Nat := 5

/-- One client entry of the limiter's memory store: the hit counter and the
instant at which the window resets. -/
structure RateEntry where
  key : String
  totalHits : Nat
  resetTime : Nat
deriving DecidableEq, Repr

/-- One request through `express-rate-limit` with the default settings the
source keeps: the key is the **client IP**, every request (successful or
not) increments the counter, a fresh or expired entry restarts at 1 with
`resetTime = now + windowMs`, and the request is rejected iff the
incremented count exceeds `max`.  Returns (blocked?, new store). -/
def rateLimitStep (store : List RateEntry) (key : String) (now : Nat) :
    Bool × List RateEntry :=
  let fresh : RateEntry := { key := key, totalHits := 1, resetTime := now + limiterWindowMs }
  match store.find? (fun e => e.key == key) with
  | none => (decide (limiterMax < 1), fresh :: store)
  | some e =>
    if e.resetTime ≤ now then
      (decide (limiterMax < 1), fresh :: store.filter (fun e2 => !(e2.key == key)))
    else
      let hits := e.totalHits + 1
      (decide (limiterMax < hits),
       store.map (fun e2 => if e2.key == key then { e2 with totalHits := hits } else e2))

/-- An inbound `POST /login` as the limited route sees it: client IP plus body. -/
structure HttpLoginRequest where
  ip : String
  email : String
  password : String
deriving Repr

/-- `router.post('/login', loginLimiter, login)`: the limiter runs first and
answers 429 with its configured message when it blocks; otherwise the login
handler runs. -/
def loginLimited (secret : String) (db : Db) (store : List RateEntry)
    (req : HttpLoginRequest) (now : Nat) : AuthResponse × Db × List RateEntry :=
  let blockedStore := rateLimitStep store req.ip now
  if blockedStore.1 then
    ({ status := 429, message := some "Too many login attempts, please try again later" },
     db, blockedStore.2)
  else
    let respDb := login secret now db { email := req.email, password := req.password }
    (respDb.1, respDb.2, blockedStore.2)

/-- Run a batch of limited login requests in order, collecting the response
status codes. -/
def runLogins (secret : String) (reqs : List (HttpLoginRequest × Nat))
    (db : Db) (store : List RateEntry) : List Nat × Db × List RateEntry :=
  match reqs with
  | [] => ([], db, store)
  | (r, t) :: rest =>
    let out := loginLimited secret db store r t
    let tail := runLogins secret rest out.2.1 out.2.2
    (out.1.status :: tail.1, tail.2)

/-! ### Concrete fixture: a one-user Directory -/

/-- Stored digest of Alice's password `Password1`. -/
def aliceDigest : Digest := bcryptHash "Password1" 0

/-- A Directory with one principal (Alice, holding role `Operator`) and two
roles. -/
def sampleDb : Db :=
  { users := [{ id := 1, firstName := "Alice", lastName := "A",
                email := "alice@example.com", password := aliceDigest,
                departmentId := none }],
    roles := [⟨1, "Admin"⟩, ⟨2, "Operator"⟩],
    userRoles := [⟨1, 2⟩],
    departments := [],
    logs := [],
    nextUserId := 2,
    salt := 1 }

/-- State after Alice requests a password reset at time 0 (the drawn secret
is `rsecret`, its digest stored with a 1h expiry). -/
def resetDb1 : Db := (requestPasswordReset sampleDb 0 "rsecret" "alice@example.com").2

/-- First `confirmReset` with the correct secret, inside the expiry window. -/
def resetOnce : SlimResponse × Db :=
  resetPassword resetDb1 100 ⟨"alice@example.com", "rsecret", "NewPass123"⟩

/-- Second `confirmReset` with the **same** secret, after the first one
succeeded, still inside the expiry window. -/
def resetTwice : SlimResponse × Db :=
  resetPassword resetOnce.2 200 ⟨"alice@example.com", "rsecret", "NewPass456"⟩

/-- Five failed login attempts for Alice's email from five distinct client
IPs, then a sixth attempt with the correct password from yet another IP,
all within one 15-minute window. -/
def fiveFailuresDistinctIps : List (HttpLoginRequest × Nat) :=
  [(⟨"ip1", "alice@example.com", "Wrong1xxx"⟩, 0),
   (⟨"ip2", "alice@example.com", "Wrong1xxx"⟩, 1),
   (⟨"ip3", "alice@example.com", "Wrong1xxx"⟩, 2),
   (⟨"ip4", "alice@example.com", "Wrong1xxx"⟩, 3),
   (⟨"ip5", "alice@example.com", "Wrong1xxx"⟩, 4),
   (⟨"ip6", "alice@example.com", "Password1"⟩, 5)]

/-! ## Claims -/

/-- C1: the claim states that login on an absent email and login with a
wrong password produce the same error kind, status and message.  The wired
`login` handler refutes this: an unknown email gets a distinct 404 "User
not found" while a password mismatch gets 401 "Invalid credentials", so the
two failure branches are distinguishable (an account-enumeration signal). -/
theorem c1_login_failure_branches_distinguishable :
    (login "s" 0 sampleDb ⟨"bob@example.com", "Password1"⟩).1.status = 404 ∧
    (login "s" 0 sampleDb ⟨"bob@example.com", "Password1"⟩).1.message = some "User not found" ∧
    (login "s" 0 sampleDb ⟨"alice@example.com", "WrongPass1"⟩).1.status = 401 ∧
    (login "s" 0 sampleDb ⟨"alice@example.com", "WrongPass1"⟩).1.message = some "Invalid credentials" ∧
    (login "s" 0 sampleDb ⟨"bob@example.com", "Password1"⟩).1.status ≠
      (login "s" 0 sampleDb ⟨"alice@example.com", "WrongPass1"⟩).1.status := by
  refine ⟨rfl, rfl, rfl, rfl, ?_⟩
  decide

/-- C2: the claim states that a second `confirmReset` with the same secret
after a successful first one fails and leaves the password alone.  The code
refutes it: the reset request is looked up again (nothing marks it
consumed), the same secret verifies again, so the second call also returns
200 and rewrites the stored password. -/
theorem c2_reset_ticket_replayable :
    resetOnce.1.status = 200 ∧
    resetTwice.1.status = 200 ∧
    resetTwice.1.message = "Password has been reset successfully" ∧
    resetTwice.2.users.map (fun u => u.password.plain) = ["NewPass456"] ∧
    resetTwice.2.users ≠ resetOnce.2.users := by
  refine ⟨rfl, rfl, rfl, rfl, ?_⟩
  decide

/-- C4: the claim states that no auth response ever contains the stored
password hash.  The `part_003` register variant refutes it: its
`formattedUser` spreads the user row without stripping `password`, so the
201 response body carries the bcrypt digest of the new password. -/
theorem c4_registerV3_response_contains_password_hash :
    (registerV3 "s" 0 sampleDb ⟨"Bob", "B", "bob@example.com", "Password1", none, some [2]⟩).1.status = 201 ∧
    ((registerV3 "s" 0 sampleDb ⟨"Bob", "B", "bob@example.com", "Password1", none, some [2]⟩).1.user.map
      (fun p => p.password)) = some (some (bcryptHash "Password1" 1)) := by
  exact ⟨rfl, rfl⟩

/-- C7: the claim states that an invalid or expired token always yields a
401-class `AuthenticationError` and only an insufficient role yields a
403.  The second `authenticateToken` variant refutes it: its catch branch
answers **403** "Invalid or expired token" for a token whose verification
fails — here a token presented exactly at its expiry instant. -/
theorem c7_guard_rejects_expired_token_with_403 :
    authenticateTokenV2 "s" 10 sampleDb (.token (jwtSign "s" ⟨1, "alice@example.com"⟩ 10 0)) =
      .reject 403 "Invalid or expired token" ∧
    authenticateTokenV2 "s" 10 sampleDb .garbage = .reject 403 "Invalid or expired token" := by
  exact ⟨rfl, rfl⟩

/-- C5: verifying a token issued by `jwtSign` with ttl returns the original
claims strictly before `issued-at + ttl`, and fails — surfaced by the guard
as an `AuthenticationError` — at or after that instant; in particular
verification at exactly the expiry instant fails. -/
theorem c5_verify_issue_roundtrip (secret : String) (p : JwtPayload) (ttl now t : Nat) :
    (t < now + ttl → jwtVerify secret (jwtSign secret p ttl now) t = .ok p) ∧
    (now + ttl ≤ t →
      jwtVerify secret (jwtSign secret p ttl now) t = .error .tokenExpired ∧
      jwtErrorToAppErr .tokenExpired = .authenticationError "Invalid or expired token") := by
  constructor
  · intro h
    simp [jwtVerify, jwtSign, Nat.not_le.mpr h]
  · intro h
    exact ⟨by simp [jwtVerify, jwtSign, h], rfl⟩

/-- Witness for C5 at a concrete token: verification two ticks before the
expiry succeeds with the original payload, and at exactly the expiry
instant it fails as expired. -/
theorem c5_verify_issue_roundtrip_witness :
    jwtVerify "s" (jwtSign "s" ⟨1, "alice@example.com"⟩ 10 0) 8 = .ok ⟨1, "alice@example.com"⟩ ∧
    jwtVerify "s" (jwtSign "s" ⟨1, "alice@example.com"⟩ 10 0) 10 = .error .tokenExpired :=
  ⟨(c5_verify_issue_roundtrip "s" ⟨1, "alice@example.com"⟩ 10 0 8).1 (by decide),
   ((c5_verify_issue_roundtrip "s" ⟨1, "alice@example.com"⟩ 10 0 10).2 (by decide)).1⟩

/-- C8: both role checks (`requireRoles` in the auth middleware and
`authorize` in the error middleware file) succeed exactly when the
context's role names intersect the required list (OR semantics); an
`Operator` is denied on an `Admin`-only route and admitted on an
`Operator`-or-`Admin` route. -/
theorem c8_role_check_or_semantics :
    (∀ (userRoles allowedRoles : List String),
      hasRequiredRole userRoles allowedRoles = true ↔ ∃ r, r ∈ userRoles ∧ r ∈ allowedRoles) ∧
    (∀ (requiredRoles userRoles : List String),
      authorizeCheck requiredRoles userRoles = hasRequiredRole userRoles requiredRoles) ∧
    requireRoles ["Admin"] (some ["Operator"]) =
      .error (.authorizationError "Insufficient permissions") ∧
    requireRoles ["Operator", "Admin"] (some ["Operator"]) = .ok () ∧
    authorize ["Admin"] (some ["Operator"]) = some (403, "Insufficient permissions") ∧
    authorize ["Operator", "Admin"] (some ["Operator"]) = none := by
  refine ⟨?_, ?_, rfl, rfl, rfl, rfl⟩
  · intro u a
    simp [hasRequiredRole, List.any_eq_true]
  · intro rq u
    have h : ∀ (x y : Bool), (x = true ↔ y = true) → x = y := by decide
    apply h
    simp [hasRequiredRole, authorizeCheck, List.any_eq_true]
    tauto

/-- Helper: under passing local validation, a fresh email, a non-empty role
list resolving to at least one Directory role, and no department in the
request, `register` takes its creation path. -/
theorem register_success_eq (secret : String) (now : Nat) (db : Db)
    (req : RegisterRequest) (rs : List String)
    (hfields : (req.firstName == "" || req.lastName == "" || req.email == "" || req.password == "") = false)
    (hemail : emailRegexTest req.email = true)
    (hpw : passwordPolicyOk req.password = true)
    (hdup : db.users.find? (fun u => u.email == req.email) = none)
    (hroles : req.roles = some rs)
    (hne : rs.isEmpty = false)
    (hfound : (db.roles.filter (fun r => rs.contains r.name)).isEmpty = false)
    (hdept : req.department = none) :
    register secret now db req =
      register.registerCreate secret now db req
        (db.roles.filter (fun r => rs.contains r.name)) none := by
  simp only [register, hfields, hemail, hpw, hdup, hroles, hne, hfound, hdept,
    Bool.not_true, Bool.false_eq_true, if_false, Bool.not_false, if_true]

/-- C3 counterexample: five failed logins for Alice's email within one
window, each from a different client IP, then a sixth attempt with the
correct password — the sixth succeeds with 200 instead of the claimed 429,
because the limiter counts per client IP, not per login email. -/
theorem c3_counterexample_limiter_not_keyed_by_email :
    (runLogins "s" fiveFailuresDistinctIps sampleDb []).1 = [401, 401, 401, 401, 401, 200] := by
  decide

/-- C3 amended: the limiter is keyed by client IP and counts every login
request in the 15-minute window regardless of outcome or email; once an
IP's entry holds `max = 5` or more hits inside its window, the next request
from that IP gets 429 with the configured message, whatever email and
password it carries. -/
theorem c3_limiter_blocks_by_client_ip (secret : String) (db : Db)
    (store : List RateEntry) (req : HttpLoginRequest) (now : Nat) (e : RateEntry)
    (hfind : store.find? (fun x => x.key == req.ip) = some e)
    (hhits : limiterMax ≤ e.totalHits)
    (hwin : now < e.resetTime) :
    (loginLimited secret db store req now).1 =
      { status := 429, message := some "Too many login attempts, please try again later",
        user := none, token := none } := by
  have hblock : (rateLimitStep store req.ip now).1 = true := by
    simp only [rateLimitStep, hfind]
    rw [if_neg (Nat.not_le.mpr hwin)]
    simpa using Nat.lt_succ_of_le hhits
  simp only [loginLimited, hblock, if_true]

/-- Witness for C3 amended: an IP with five hits in its current window is
blocked even when presenting Alice's correct password. -/
theorem c3_limiter_blocks_by_client_ip_witness :
    (loginLimited "s" sampleDb [⟨"ip7", 5, 900000⟩]
        ⟨"ip7", "alice@example.com", "Password1"⟩ 0).1 =
      { status := 429, message := some "Too many login attempts, please try again later",
        user := none, token := none } :=
  c3_limiter_blocks_by_client_ip "s" sampleDb [⟨"ip7", 5, 900000⟩]
    ⟨"ip7", "alice@example.com", "Password1"⟩ 0 ⟨"ip7", 5, 900000⟩
    (by decide) (by decide) (by decide)

/-- C6 counterexample: a successful registration through the wired
controller answers 201 with a freshly signed 24h bearer token in the body —
registration is implicit login, contradicting "never contains a token". -/
theorem c6_counterexample_register_returns_token :
    (register "s" 0 sampleDb
        { firstName := "Bob", lastName := "B", email := "bob@example.com",
          password := "Password1", roles := some ["Operator"] }).1.status = 201 ∧
    (register "s" 0 sampleDb
        { firstName := "Bob", lastName := "B", email := "bob@example.com",
          password := "Password1", roles := some ["Operator"] }).1.token =
      some (jwtSign "s" ⟨2, "bob@example.com"⟩ (24 * 3600000) 0) := by
  exact ⟨rfl, rfl⟩

/-- C6 amended: every successful registration through the wired controller
returns the principal's public projection with the hash stripped **and** a
signed 24h bearer token for the new principal. -/
theorem c6_register_success_issues_token (secret : String) (now : Nat) (db : Db)
    (req : RegisterRequest) (rs : List String)
    (hfields : (req.firstName == "" || req.lastName == "" || req.email == "" || req.password == "") = false)
    (hemail : emailRegexTest req.email = true)
    (hpw : passwordPolicyOk req.password = true)
    (hdup : db.users.find? (fun u => u.email == req.email) = none)
    (hroles : req.roles = some rs)
    (hne : rs.isEmpty = false)
    (hfound : (db.roles.filter (fun r => rs.contains r.name)).isEmpty = false)
    (hdept : req.department = none) :
    (register secret now db req).1.status = 201 ∧
    (register secret now db req).1.token =
      some (jwtSign secret ⟨db.nextUserId, req.email⟩ (24 * 3600000) now) ∧
    ∃ proj, (register secret now db req).1.user = some proj ∧ proj.password = none := by
  rw [register_success_eq secret now db req rs hfields hemail hpw hdup hroles hne hfound hdept]
  exact ⟨rfl, rfl, ⟨_, rfl, rfl⟩⟩

/-- Witness for C6 amended: Bob's registration on the sample Directory. -/
theorem c6_register_success_issues_token_witness :
    (register "s" 0 sampleDb
        { firstName := "Bob", lastName := "B", email := "bob@example.com",
          password := "Password1", roles := some ["Operator"] }).1.status = 201 ∧
    (register "s" 0 sampleDb
        { firstName := "Bob", lastName := "B", email := "bob@example.com",
          password := "Password1", roles := some ["Operator"] }).1.token =
      some (jwtSign "s" ⟨2, "bob@example.com"⟩ (24 * 3600000) 0) ∧
    ∃ proj,
      (register "s" 0 sampleDb
          { firstName := "Bob", lastName := "B", email := "bob@example.com",
            password := "Password1", roles := some ["Operator"] }).1.user = some proj ∧
      proj.password = none :=
  c6_register_success_issues_token "s" 0 sampleDb
    { firstName := "Bob", lastName := "B", email := "bob@example.com",
      password := "Password1", roles := some ["Operator"] } ["Operator"]
    (by decide) (by decide) (by decide) (by decide) rfl (by decide) (by decide) rfl

/-- C9 counterexample: the `part_002` register variant rejects a duplicate
email with **400** "User already exists", not the claimed `ConflictError`
409. -/
theorem c9_counterexample_duplicate_email_400 :
    (registerV2 sampleDb ⟨"Alice2", "A", "alice@example.com", "Password1", none⟩).1 =
      { status := 400, message := "User already exists", userId := none, userEmail := none } := by
  exact rfl

/-- C9 amended: registration with an already-registered email always fails
before any Directory write — the wired controller with `ConflictError`
(409), the `part_002` variant with 400 "User already exists" — and in both
cases the Directory state is returned unchanged. -/
theorem c9_duplicate_email_rejected_without_writes (secret : String) (now : Nat) (db : Db)
    (req : RegisterRequest) (reqB : RegisterV2Request) (u uB : User)
    (hfields : (req.firstName == "" || req.lastName == "" || req.email == "" || req.password == "") = false)
    (hemail : emailRegexTest req.email = true)
    (hpw : passwordPolicyOk req.password = true)
    (hdup : db.users.find? (fun x => x.email == req.email) = some u)
    (hemailB : emailRegexTest reqB.email = true)
    (hpwB : passwordRegexV2 reqB.password = true)
    (hdupB : db.users.find? (fun x => x.email == reqB.email) = some uB) :
    register secret now db req =
      ({ status := 409, message := some "User with this email already exists" }, db) ∧
    registerV2 db reqB = ({ status := 400, message := "User already exists" }, db) := by
  constructor
  · simp only [register, hfields, hemail, hpw, hdup,
      Bool.not_true, Bool.false_eq_true, if_false, Bool.not_false, if_true]
  · simp only [registerV2, hemailB, hpwB, hdupB,
      Bool.not_true, Bool.false_eq_true, if_false, Bool.not_false, if_true]

/-- Witness for C9 amended: Alice's email re-registered on the sample
Directory through both register variants. -/
theorem c9_duplicate_email_rejected_without_writes_witness :
    register "s" 0 sampleDb
        { firstName := "Alice2", lastName := "A", email := "alice@example.com",
          password := "Password1", roles := some ["Operator"] } =
      ({ status := 409, message := some "User with this email already exists" }, sampleDb) ∧
    registerV2 sampleDb ⟨"Alice2", "A", "alice@example.com", "Password1", none⟩ =
      ({ status := 400, message := "User already exists" }, sampleDb) :=
  c9_duplicate_email_rejected_without_writes "s" 0 sampleDb
    { firstName := "Alice2", lastName := "A", email := "alice@example.com",
      password := "Password1", roles := some ["Operator"] }
    ⟨"Alice2", "A", "alice@example.com", "Password1", none⟩
    ⟨1, "Alice", "A", "alice@example.com", aliceDigest, none⟩
    ⟨1, "Alice", "A", "alice@example.com", aliceDigest, none⟩
    (by decide) (by decide) (by decide) (by decide) (by decide) (by decide) (by decide)

/-- C10: for an otherwise valid registration with a non-empty requested
role-name list, the wired controller fails with the role-validation error
exactly when none of the names exists in the Directory; when at least one
exists it succeeds with 201 and assigns exactly the existing requested
roles, silently dropping unrecognized names. -/
theorem c10_register_role_resolution (secret : String) (now : Nat) (db : Db)
    (req : RegisterRequest) (rs : List String)
    (hfields : (req.firstName == "" || req.lastName == "" || req.email == "" || req.password == "") = false)
    (hemail : emailRegexTest req.email = true)
    (hpw : passwordPolicyOk req.password = true)
    (hdup : db.users.find? (fun u => u.email == req.email) = none)
    (hroles : req.roles = some rs)
    (hne : rs.isEmpty = false)
    (hdept : req.department = none) :
    ((register secret now db req).1.message = some "Invalid role(s) provided" ↔
      db.roles.filter (fun r => rs.contains r.name) = []) ∧
    (db.roles.filter (fun r => rs.contains r.name) ≠ [] →
      (register secret now db req).1.status = 201 ∧
      ((register secret now db req).1.user.map (fun p => p.roles)) =
        some (db.roles.filter (fun r => rs.contains r.name)) ∧
      (register secret now db req).2.userRoles =
        db.userRoles ++ (db.roles.filter (fun r => rs.contains r.name)).map
          (fun r => UserRole.mk db.nextUserId r.id)) := by
  cases hfl : db.roles.filter (fun r => rs.contains r.name) with
  | nil =>
    have h400 : register secret now db req =
        ({ status := 400, message := some "Invalid role(s) provided" }, db) := by
      simp only [register, hfields, hemail, hpw, hdup, hroles, hne, hfl,
        Bool.not_true, Bool.false_eq_true, if_false, Bool.not_false, if_true,
        List.isEmpty_nil]
    rw [h400]
    exact ⟨by simp, fun h => absurd rfl h⟩
  | cons a as =>
    have hfound : (db.roles.filter (fun r => rs.contains r.name)).isEmpty = false := by
      rw [hfl]; rfl
    have hsucc := register_success_eq secret now db req rs hfields hemail hpw hdup hroles hne
      hfound hdept
    rw [hsucc, hfl]
    refine ⟨by simp [register.registerCreate], fun _ => ⟨rfl, rfl, rfl⟩⟩

/-- Witness for C10: on the sample Directory, requesting only the unknown
role `Nope` is rejected with the role-validation error, while requesting
`Nope` and `Operator` succeeds and assigns exactly `Operator`. -/
theorem c10_register_role_resolution_witness :
    (register "s" 0 sampleDb
        { firstName := "Bob", lastName := "B", email := "bob@example.com",
          password := "Password1", roles := some ["Nope"] }).1.message =
      some "Invalid role(s) provided" ∧
    (register "s" 0 sampleDb
        { firstName := "Bob", lastName := "B", email := "bob@example.com",
          password := "Password1", roles := some ["Nope", "Operator"] }).1.status = 201 ∧
    ((register "s" 0 sampleDb
        { firstName := "Bob", lastName := "B", email := "bob@example.com",
          password := "Password1", roles := some ["Nope", "Operator"] }).1.user.map
      (fun p => p.roles)) = some [⟨2, "Operator"⟩] ∧
    (register "s" 0 sampleDb
        { firstName := "Bob", lastName := "B", email := "bob@example.com",
          password := "Password1", roles := some ["Nope", "Operator"] }).2.userRoles =
      sampleDb.userRoles ++ [⟨2, 2⟩] := by
  have h1 := (c10_register_role_resolution "s" 0 sampleDb
    { firstName := "Bob", lastName := "B", email := "bob@example.com",
      password := "Password1", roles := some ["Nope"] } ["Nope"]
    (by decide) (by decide) (by decide) (by decide) rfl (by decide) rfl).1.mpr (by decide)
  have h2 := (c10_register_role_resolution "s" 0 sampleDb
    { firstName := "Bob", lastName := "B", email := "bob@example.com",
      password := "Password1", roles := some ["Nope", "Operator"] } ["Nope", "Operator"]
    (by decide) (by decide) (by decide) (by decide) rfl (by decide) rfl).2 (by decide)
  refine ⟨h1, h2.1, ?_, ?_⟩
  · have := h2.2.1
    simpa using this
  · have := h2.2.2
    simpa using this

end CoreSync
